import Mathlib

/-!
Verification development for the concurrent crawling engine in
`src/crawler/base.py` (class `Crawler`).

The carrier value objects (`Request`, `Response`, the error classes, `Stat`,
`CurlTransport`) live in repository modules that are not part of the core
source; the spec declares them external collaborators, so they are modelled
from the spec as plain attribute bags.  All control logic below is translated
directly from `base.py`.

The development has two layers:

* a functional extraction of each worker-loop body (the per-item logic of
  `worker_network`, `worker_parser`, `worker_task_generator`, the `__init__`
  sizing, and the `finally` teardown block of `run`), and
* a fine-grained interleaving transition system for the whole program, one
  atomic step per access to shared state, used to exhibit concrete executions
  (schedules) of the concurrent code.
-/

namespace Crawler

/-- Modelled from the spec: a `Request` is "an opaque work item with a mutable
`network_try_count` (fetch attempts so far) and an identifying `tag` selecting
the handler" (the `request` module is external to the core source). -/
structure Request where
  url : String
  tag : String
  networkTryCount : Nat
deriving DecidableEq

/-- Modelled from the spec: a `Response` is "an opaque result paired 1:1 with
the Request that produced it"; created by the Transport. -/
structure Response where
  body : String
deriving DecidableEq

/-- Modelled from the spec / the imports of `base.py`: the errors that flow
through the engine.  `networkError` is the transient kind (`NetworkError`
raised by the transport), `unknownTaskType` is raised by
`worker_task_generator`, `keyError` is the mapping-lookup failure of
`self._handlers[req.tag]`, `assertionError` is raised by
`assert isinstance(item, Request)`, and `other` stands for any further
exception object. -/
inductive Err where
  | networkError (msg : String)
  | unknownTaskType (msg : String)
  | keyError (key : String)
  | assertionError
  | other (msg : String)
deriving DecidableEq

/-- `isinstance(ex, NetworkError)`: the discrimination performed by the
`except NetworkError as ex:` clause at `base.py:91`. -/
def Err.isNetworkError : Err → Bool
  | .networkError _ => true
  | _ => false

/-- `req.network_try_count += 1` (`base.py:92`). -/
def Request.bump (req : Request) : Request :=
  { req with networkTryCount := req.networkTryCount + 1 }

/-- Outcome of one `self.network_transport.process_request(req)` call
(`base.py:90`): it either returns a response or raises an exception. -/
inductive FetchOutcome where
  | success (resp : Response)
  | raises (e : Err)
deriving DecidableEq

/-- Observable effects of one iteration of the `try/except/except/else` block
of `worker_network` (`base.py:88`–`103`) on a single dequeued request:
what is put back on the Task Queue, what is put on the Result Queue, what is
pushed to the Fatal Error Channel, what is passed to
`process_rejected_request`, and the request object as it stands afterwards. -/
structure NetStepResult where
  requeued : Option Request
  respPushed : Option (Request × Response)
  fatalPushed : Option Err
  rejected : Option (Request × Option Response × Err)
  reqAfter : Request
deriving DecidableEq

/-- Translation of `base.py:88`–`103`: on success the pair `(req, resp)` is
put on the Result Queue (`else:` branch, line 103); on `NetworkError` the
count is incremented, and the request is rejected when
`network_try_count > network_try_limit`, else put back on the Task Queue;
any other exception goes whole to the Fatal Error Channel. -/
def networkHandleFetch (limit : Nat) (req : Request) (outcome : FetchOutcome) :
    NetStepResult :=
  match outcome with
  | .success resp =>
      { requeued := none, respPushed := some (req, resp), fatalPushed := none,
        rejected := none, reqAfter := req }
  | .raises e =>
      if e.isNetworkError then
        let req' := req.bump
        if req'.networkTryCount > limit then
          { requeued := none, respPushed := none, fatalPushed := none,
            rejected := some (req', none, e), reqAfter := req' }
        else
          { requeued := some req', respPushed := none, fatalPushed := none,
            rejected := none, reqAfter := req' }
      else
        { requeued := none, respPushed := none, fatalPushed := some e,
          rejected := none, reqAfter := req }

/-- Events of a network worker's handling of one request across attempts:
a fetch attempt (`process_request` call), a re-enqueue on the Task Queue,
or a rejection (`process_rejected_request` call). -/
inductive NetEvent where
  | attempt (r : Request)
  | requeue (r : Request)
  | reject (r : Request) (resp : Option Response) (e : Err)
deriving DecidableEq

/-- The event trace produced when a request is processed again and again by
`worker_network` while the transport raises `NetworkError` on every attempt:
each dequeue leads to one fetch attempt (`base.py:90`), then either a
re-enqueue (line 99, after which the request is dequeued again) or a final
rejection (line 97).  `fuel` bounds the recursion; `networkTryLimit + 1`
attempts is shown below to be the exact length of the run. -/
def allTransientRun (limit : Nat) (msg : String) :
    Nat → Request → List NetEvent
  | 0, _ => []
  | fuel + 1, req =>
      let res := networkHandleFetch limit req (.raises (.networkError msg))
      match res.requeued with
      | some req' =>
          .attempt req :: .requeue req' :: allTransientRun limit msg fuel req'
      | none =>
          [.attempt req, .reject res.reqAfter none (.networkError msg)]

/-- Number of fetch attempts in a trace. -/
def countAttempts (evs : List NetEvent) : Nat :=
  evs.countP (fun ev => match ev with | .attempt _ => true | _ => false)

/-- Number of rejections in a trace. -/
def countRejects (evs : List NetEvent) : Nat :=
  evs.countP (fun ev => match ev with | .reject _ _ _ => true | _ => false)

/-- Number of re-enqueues in a trace. -/
def countRequeues (evs : List NetEvent) : Nat :=
  evs.countP (fun ev => match ev with | .requeue _ => true | _ => false)

/-- One value yielded by a handler's result sequence (`for item in hdl_result`,
`base.py:140`): either a valid `Request` or some other value, on which
`assert isinstance(item, Request)` (line 141) raises `AssertionError`. -/
inductive YieldItem where
  | validReq (r : Request)
  | invalid (desc : String)
deriving DecidableEq

/-- The observable behaviour of one handler invocation
(`handler(req, resp)`, `base.py:138`): the sequence of values it yields in
order, and — when the call or the iteration raises — the exception raised
after those yields.  A handler that is a simple function returning `None`
is the run with no yields and no exception (`if hdl_result is not None`,
line 139, skips the loop). -/
structure HandlerRun where
  yields : List YieldItem
  raises : Option Err
deriving DecidableEq

/-- Outcome of processing one `(request, response)` pair dequeued by
`worker_parser`: the worker either continues its loop (having enqueued some
requests and pushed at most one error to the Fatal Error Channel), or its
thread dies on an uncaught exception. -/
inductive ParserOutcome where
  | cont (enqueued : List Request) (fatalPushed : Option Err)
  | crashed (e : Err)
deriving DecidableEq

/-- The `for item in hdl_result` loop body (`base.py:140`–`142`): yields are
enqueued in order until the first non-`Request` value, whose `assert` raises
`AssertionError`; later yields are never pulled.  Returns the enqueued
requests and the error, if any, raised during the iteration. -/
def processYields : List YieldItem → List Request × Option Err
  | [] => ([], none)
  | .validReq r :: rest =>
      let res := processYields rest
      (r :: res.1, res.2)
  | .invalid _ :: _ => ([], some .assertionError)

/-- Translation of `base.py:132`–`145`, the handling of one real pair in
`worker_parser`.  The registry lookup `self._handlers[req.tag]` (line 133)
happens OUTSIDE the `try:` that starts at line 137, so a missing tag raises
an uncaught `KeyError` that kills the worker thread; every exception raised
inside the `try:` (handler call, iteration, assertion) is pushed whole to
the Fatal Error Channel and the worker continues. -/
def parserProcessItem
    (handlers : String → Option (Request → Response → HandlerRun))
    (req : Request) (resp : Response) : ParserOutcome :=
  match handlers req.tag with
  | none => .crashed (.keyError req.tag)
  | some h =>
      let run := h req resp
      let res := processYields run.yields
      match res.2 with
      | some e => .cont res.1 (some e)
      | none =>
          match run.raises with
          | some e => .cont res.1 (some e)
          | none => .cont res.1 none

/-- The error, if any, that the `try:` at `base.py:137`–`145` catches while
running a handler: the `AssertionError` of the first malformed yield
preempts an exception the handler itself would raise later. -/
def capturedError (run : HandlerRun) : Option Err :=
  match (processYields run.yields).2 with
  | some e => some e
  | none => run.raises

/-- One value produced by the external task sequence (`self.task_generator()`):
either a `Request` instance or some other value (`isinstance(task, Request)`
is the discrimination at `base.py:69`). -/
inductive GenItem where
  | req (r : Request)
  | otherVal (desc : String)
deriving DecidableEq

/-- Observable result of `worker_task_generator`: the requests put on the
Task Queue, in order, and the error pushed to the Fatal Error Channel if the
worker's `try:` body raised. -/
structure GenOutcome where
  enqueued : List Request
  fatal : Option Err
deriving DecidableEq

/-- Translation of `worker_task_generator` (`base.py:64`–`76`) with the
`self._work_allowed` flag held fixed: each task pulled from the sequence is
first dropped if work is disallowed (line 67, the worker returns), then put
on the Task Queue if it is a `Request`, else `UnknownTaskType` is raised;
the `except` at line 75 pushes the exception to the Fatal Error Channel and
the worker exits, so nothing after the offending value is enqueued. -/
def workerTaskGeneratorRun (workAllowed : Bool) : List GenItem → GenOutcome
  | [] => { enqueued := [], fatal := none }
  | t :: rest =>
      if workAllowed then
        match t with
        | .req r =>
            let o := workerTaskGeneratorRun workAllowed rest
            { enqueued := r :: o.enqueued, fatal := o.fatal }
        | .otherVal d =>
            { enqueued := [], fatal := some (.unknownTaskType d) }
      else
        { enqueued := [], fatal := none }

/-- The configuration dict built by `Crawler.__init__` (`base.py:30`–`37`)
together with the `maxsize` arguments of the two bounded queues
(lines 38–43).  `cpuCount` stands for `multiprocessing.cpu_count()`. -/
structure CrawlerInit where
  numNetworkThreads : Nat
  numParsers : Nat
  networkTryLimit : Nat
  taskTryLimit : Nat
  requestQueueMaxsize : Nat
  responseQueueMaxsize : Nat
deriving DecidableEq

/-- Translation of `Crawler.__init__` (`base.py:22`–`43`): `num_parsers` is
`max(1, multiprocessing.cpu_count() // 2)`; the Task (request) Queue is
bounded by `num_network_threads` and the Result (response) Queue by
`num_parsers`. -/
def crawlerInit (numNetworkThreads networkTryLimit taskTryLimit cpuCount : Nat) :
    CrawlerInit :=
  let numParsers := max 1 (cpuCount / 2)
  { numNetworkThreads := numNetworkThreads
    numParsers := numParsers
    networkTryLimit := networkTryLimit
    taskTryLimit := taskTryLimit
    requestQueueMaxsize := numNetworkThreads
    responseQueueMaxsize := numParsers }

/-- Observable result of the `finally:` block of `Crawler.run`
(`base.py:227`–`243`), entered with `pending` the exception propagating out
of the `try:` (if any) and, once every worker has been joined,
`fatalAtDrain` the content of the Fatal Error Channel when line 238 runs. -/
structure TeardownResult where
  requestSentinels : Nat
  responseSentinels : Nat
  joinedNetThreads : Bool
  joinedParserThreads : Bool
  hookCalls : Nat
  raised : Option Err
deriving DecidableEq

/-- Translation of `base.py:227`–`243`: one `None` sentinel per network worker
and one per parser worker are put on the queues, every worker thread is
joined, then the Fatal Error Channel is polled once more; if an error is
found it is raised — which exits the `finally:` block at line 242 and so
SKIPS `self.shutdown_hook()` (line 243) and replaces any pending exception —
otherwise the shutdown hook runs and the pending exception (if any)
propagates. -/
def runTeardown (numNet numParsers : Nat) (pending : Option Err)
    (fatalAtDrain : List Err) : TeardownResult :=
  match fatalAtDrain with
  | e :: _ =>
      { requestSentinels := numNet, responseSentinels := numParsers,
        joinedNetThreads := true, joinedParserThreads := true,
        hookCalls := 0, raised := some e }
  | [] =>
      { requestSentinels := numNet, responseSentinels := numParsers,
        joinedNetThreads := true, joinedParserThreads := true,
        hookCalls := 1, raised := pending }

/-!
## Interleaving transition system

One atomic step per statement that touches shared state; thread-local
computation is folded into the step that follows it.  Python's `queue.Queue`
operations are individually atomic; distinct statements of a worker can be
interleaved arbitrarily with other threads.
-/

/-- `base.py:125` executes `if self._pause_event:` — this tests the truth
value of the `threading.Event` OBJECT itself, not `is_set()`.  An `Event`
defines neither `__bool__` nor `__len__`, so the object is always truthy,
whatever its internal flag. -/
def pauseEventObjectTruthy : Bool := true

/-- Program counter of `worker_task_generator` (`base.py:64`–`76`). -/
inductive GenPc where
  | pull
  | checkWork (cur : GenItem)
  | putTask (r : Request)
  | done
deriving DecidableEq

/-- State of the task-generator thread: its position and the unconsumed rest
of the external task sequence. -/
structure GenState where
  pc : GenPc
  rest : List GenItem
deriving DecidableEq

/-- Program counter of `worker_network` (`base.py:81`–`105`), one value per
shared-state access: the queue `get` (line 83), the sentinel test (84), the
`active = True` write (86), the transport call (90), and the four exits of
the `try` (lines 97, 99, 101, 103) followed by the `finally` write (105). -/
inductive NetPc where
  | getTask
  | checkItem (it : Option Request)
  | setActive (r : Request)
  | fetch (r : Request)
  | putResp (r : Request) (resp : Response)
  | requeue (r : Request)
  | reject (r : Request) (e : Err)
  | pushFatal (e : Err)
  | clearActive
  | done
deriving DecidableEq

/-- State of one network-worker thread: position plus its
`self._net_threads[...]['active']` flag. -/
structure NetState where
  pc : NetPc
  active : Bool
deriving DecidableEq

/-- Program counter of `worker_parser` (`base.py:120`–`145`).  `crashed`
is a thread that died on an uncaught exception (the registry lookup at
line 133 is outside the `try:`); such a thread is dead and joinable. -/
inductive ParserPc where
  | getResult
  | timeoutPause
  | waitResume
  | clearPaused
  | checkItem (it : Option (Request × Response))
  | handlerLookup (r : Request) (resp : Response)
  | yieldPuts (items : List YieldItem) (raisesAfter : Option Err)
  | pushFatal (e : Err)
  | done
  | crashed (e : Err)
deriving DecidableEq

/-- A parser thread is finished — for the purpose of `Thread.join`
(`base.py:236`) — when its target returned or raised. -/
def ParserPc.finished : ParserPc → Bool
  | .done => true
  | .crashed _ => true
  | _ => false

/-- State of one parser-worker thread: position plus its
`self._parser_threads[...]['paused']` flag. -/
structure ParserState where
  pc : ParserPc
  paused : Bool
deriving DecidableEq

/-- Program counter of the orchestrator, i.e. the main thread inside
`Crawler.run` (`base.py:179`–`243`): the `while` loop with its sequence of
shared reads (each read of a queue size or a worker flag is its own atomic
point), then the `finally:` teardown. -/
inductive OrchPc where
  | checkWork
  | pollFatal
  | checkGenAlive
  | checkReqEmpty
  | checkRespEmpty
  | setPause
  | spinPaused
  | checkReqEmpty2
  | checkRespEmpty2
  | checkNetInactive
  | setWorkFalse
  | clearPause
  | setResume
  | spinUnpaused
  | clearResume
  | putReqSentinels (k : Nat)
  | putRespSentinels (k : Nat)
  | joinNet (i : Nat)
  | joinParsers (i : Nat)
  | finalDrain
  | callHook
  | terminated
deriving DecidableEq

/-- State of the orchestrator: position plus the exception currently
propagating out of the `try:` of `run` (if any). -/
structure OrchState where
  pc : OrchPc
  pending : Option Err
deriving DecidableEq

/-- A run configuration: pool sizes (which are also the queue capacities,
cf. `crawlerInit`), the retry limit, the external task sequence, the
transport's behaviour and the handler registry. -/
structure Setup where
  numNet : Nat
  numParsers : Nat
  networkTryLimit : Nat
  tasks : List GenItem
  transport : Request → FetchOutcome
  handlers : String → Option (Request → Response → HandlerRun)

/-- Global shared state of the program.  Queue items are `none` for the
`None` sentinel.  `rejections` records the `process_rejected_request`
invocations and `hookCalls` the `shutdown_hook` invocations. -/
structure SysState where
  reqQueue : List (Option Request)
  respQueue : List (Option (Request × Response))
  fatal : List Err
  workAllowed : Bool
  pauseEvent : Bool
  resumeEvent : Bool
  gen : GenState
  nets : List NetState
  parsers : List ParserState
  orch : OrchState
  hookCalls : Nat
  rejections : List (Request × Option Response × Err)
deriving DecidableEq

/-- One step of `worker_task_generator` (`base.py:64`–`76`).  Pulling from
the sequence, the `self._work_allowed` test (line 67) and the bounded
blocking `put` (line 70) are separate atomic points; on a non-`Request`
task the raised `UnknownTaskType` reaches the `except` (line 75) which
pushes it to the Fatal Error Channel, after which the thread is done. -/
def genStep (sc : Setup) (s : SysState) : Option SysState :=
  match s.gen.pc with
  | .pull =>
      match s.gen.rest with
      | [] => some { s with gen := { s.gen with pc := .done } }
      | t :: rest' => some { s with gen := { pc := .checkWork t, rest := rest' } }
  | .checkWork t =>
      if s.workAllowed then
        match t with
        | .req r => some { s with gen := { s.gen with pc := .putTask r } }
        | .otherVal d =>
            some { s with fatal := s.fatal ++ [Err.unknownTaskType d],
                          gen := { s.gen with pc := .done } }
      else some { s with gen := { s.gen with pc := .done } }
  | .putTask r =>
      if s.reqQueue.length < sc.numNet then
        some { s with reqQueue := s.reqQueue ++ [some r],
                      gen := { s.gen with pc := .pull } }
      else none
  | .done => none

/-- One step of network worker `i` (`worker_network`, `base.py:81`–`105`).
The blocking `get` is enabled only on a non-empty queue; the bounded `put`s
only under capacity; `reject` covers the statistic store plus the
`process_rejected_request(req, None, ex)` call (lines 94–97). -/
def netStep (sc : Setup) (s : SysState) (i : Nat) : Option SysState :=
  match s.nets.get? i with
  | none => none
  | some ns =>
    match ns.pc with
    | .getTask =>
        match s.reqQueue with
        | [] => none
        | it :: rest =>
            some { s with reqQueue := rest,
                          nets := s.nets.set i { ns with pc := .checkItem it } }
    | .checkItem it =>
        match it with
        | none => some { s with nets := s.nets.set i { ns with pc := .done } }
        | some r =>
            some { s with nets := s.nets.set i { ns with pc := .setActive r } }
    | .setActive r =>
        some { s with nets := s.nets.set i { pc := .fetch r, active := true } }
    | .fetch r =>
        match sc.transport r with
        | .success resp =>
            some { s with nets := s.nets.set i { ns with pc := .putResp r resp } }
        | .raises e =>
            if e.isNetworkError then
              let r' := r.bump
              if r'.networkTryCount > sc.networkTryLimit then
                some { s with nets := s.nets.set i { ns with pc := .reject r' e } }
              else
                some { s with nets := s.nets.set i { ns with pc := .requeue r' } }
            else
              some { s with nets := s.nets.set i { ns with pc := .pushFatal e } }
    | .putResp r resp =>
        if s.respQueue.length < sc.numParsers then
          some { s with respQueue := s.respQueue ++ [some (r, resp)],
                        nets := s.nets.set i { ns with pc := .clearActive } }
        else none
    | .requeue r =>
        if s.reqQueue.length < sc.numNet then
          some { s with reqQueue := s.reqQueue ++ [some r],
                        nets := s.nets.set i { ns with pc := .clearActive } }
        else none
    | .reject r e =>
        some { s with rejections := s.rejections ++ [(r, none, e)],
                      nets := s.nets.set i { ns with pc := .clearActive } }
    | .pushFatal e =>
        some { s with fatal := s.fatal ++ [e],
                      nets := s.nets.set i { ns with pc := .clearActive } }
    | .clearActive =>
        some { s with nets := s.nets.set i { pc := .getTask, active := false } }
    | .done => none

/-- One step of parser worker `j` (`worker_parser`, `base.py:120`–`145`).
The timed `get` (line 123), taken on an empty queue, raises `Empty` after
its timeout; the `if self._pause_event:` test then succeeds because the
Event object is always truthy (see `pauseEventObjectTruthy`), so the worker
marks itself paused and blocks on `self._resume_event.wait()` whether or
not a pause was requested. -/
def parserStep (sc : Setup) (s : SysState) (j : Nat) : Option SysState :=
  match s.parsers.get? j with
  | none => none
  | some ps =>
    match ps.pc with
    | .getResult =>
        match s.respQueue with
        | it :: rest =>
            some { s with respQueue := rest,
                          parsers := s.parsers.set j { ps with pc := .checkItem it } }
        | [] =>
            if pauseEventObjectTruthy then
              some { s with parsers := s.parsers.set j { ps with pc := .timeoutPause } }
            else
              some s
    | .timeoutPause =>
        some { s with parsers := s.parsers.set j { pc := .waitResume, paused := true } }
    | .waitResume =>
        if s.resumeEvent then
          some { s with parsers := s.parsers.set j { ps with pc := .clearPaused } }
        else none
    | .clearPaused =>
        some { s with parsers := s.parsers.set j { pc := .getResult, paused := false } }
    | .checkItem it =>
        match it with
        | none => some { s with parsers := s.parsers.set j { ps with pc := .done } }
        | some (r, resp) =>
            some { s with parsers := s.parsers.set j { ps with pc := .handlerLookup r resp } }
    | .handlerLookup r resp =>
        match sc.handlers r.tag with
        | none =>
            some { s with
              parsers := s.parsers.set j { ps with pc := .crashed (.keyError r.tag) } }
        | some h =>
            let run := h r resp
            some { s with
              parsers := s.parsers.set j { ps with pc := .yieldPuts run.yields run.raises } }
    | .yieldPuts items raisesAfter =>
        match items with
        | [] =>
            match raisesAfter with
            | none => some { s with parsers := s.parsers.set j { ps with pc := .getResult } }
            | some e => some { s with parsers := s.parsers.set j { ps with pc := .pushFatal e } }
        | .validReq r :: rest =>
            if s.reqQueue.length < sc.numNet then
              some { s with reqQueue := s.reqQueue ++ [some r],
                            parsers := s.parsers.set j { ps with pc := .yieldPuts rest raisesAfter } }
            else none
        | .invalid _ :: _ =>
            some { s with
              parsers := s.parsers.set j { ps with pc := .pushFatal Err.assertionError } }
    | .pushFatal e =>
        some { s with fatal := s.fatal ++ [e],
                      parsers := s.parsers.set j { ps with pc := .getResult } }
    | .done => none
    | .crashed _ => none

/-- One step of the orchestrator (`Crawler.run`, `base.py:179`–`243`).
Every read of a queue size or a worker flag in the `while` loop is its own
atomic point — in particular `checkNetInactive` (the `all(...)` at lines
208–211) and `setWorkFalse` (line 214) are distinct steps, as they are
distinct statements in the source.  The spin-waits (lines 194–198 and
221–225) re-read the flags on every step.  In the `finally:` block the
sentinel `put`s, the joins (enabled only when the joined thread has
finished), the final poll of the Fatal Error Channel (line 238) and the
`shutdown_hook` call follow in source order; a drained error is raised at
line 242, which skips `shutdown_hook`. -/
def orchStep (sc : Setup) (s : SysState) : Option SysState :=
  match s.orch.pc with
  | .checkWork =>
      if s.workAllowed then
        some { s with orch := { s.orch with pc := .pollFatal } }
      else
        some { s with orch := { s.orch with pc := .putReqSentinels sc.numNet } }
  | .pollFatal =>
      match s.fatal with
      | e :: rest =>
          some { s with fatal := rest,
                        orch := { pc := .putReqSentinels sc.numNet, pending := some e } }
      | [] => some { s with orch := { s.orch with pc := .checkGenAlive } }
  | .checkGenAlive =>
      if s.gen.pc = .done then
        some { s with orch := { s.orch with pc := .checkReqEmpty } }
      else
        some { s with orch := { s.orch with pc := .checkWork } }
  | .checkReqEmpty =>
      if s.reqQueue.isEmpty then
        some { s with orch := { s.orch with pc := .checkRespEmpty } }
      else some { s with orch := { s.orch with pc := .checkWork } }
  | .checkRespEmpty =>
      if s.respQueue.isEmpty then
        some { s with orch := { s.orch with pc := .setPause } }
      else some { s with orch := { s.orch with pc := .checkWork } }
  | .setPause =>
      some { s with pauseEvent := true, orch := { s.orch with pc := .spinPaused } }
  | .spinPaused =>
      if s.parsers.all (fun p => p.paused) then
        some { s with orch := { s.orch with pc := .checkReqEmpty2 } }
      else some s
  | .checkReqEmpty2 =>
      if s.reqQueue.isEmpty then
        some { s with orch := { s.orch with pc := .checkRespEmpty2 } }
      else some { s with orch := { s.orch with pc := .clearPause } }
  | .checkRespEmpty2 =>
      if s.respQueue.isEmpty then
        some { s with orch := { s.orch with pc := .checkNetInactive } }
      else some { s with orch := { s.orch with pc := .clearPause } }
  | .checkNetInactive =>
      if s.nets.all (fun n => !n.active) then
        some { s with orch := { s.orch with pc := .setWorkFalse } }
      else some { s with orch := { s.orch with pc := .clearPause } }
  | .setWorkFalse =>
      some { s with workAllowed := false, orch := { s.orch with pc := .clearPause } }
  | .clearPause =>
      some { s with pauseEvent := false, orch := { s.orch with pc := .setResume } }
  | .setResume =>
      some { s with resumeEvent := true, orch := { s.orch with pc := .spinUnpaused } }
  | .spinUnpaused =>
      if s.parsers.all (fun p => !p.paused) then
        some { s with orch := { s.orch with pc := .clearResume } }
      else some s
  | .clearResume =>
      some { s with resumeEvent := false, orch := { s.orch with pc := .checkWork } }
  | .putReqSentinels k =>
      match k with
      | 0 => some { s with orch := { s.orch with pc := .putRespSentinels sc.numParsers } }
      | k' + 1 =>
          if s.reqQueue.length < sc.numNet then
            some { s with reqQueue := s.reqQueue ++ [none],
                          orch := { s.orch with pc := .putReqSentinels k' } }
          else none
  | .putRespSentinels k =>
      match k with
      | 0 => some { s with orch := { s.orch with pc := .joinNet 0 } }
      | k' + 1 =>
          if s.respQueue.length < sc.numParsers then
            some { s with respQueue := s.respQueue ++ [none],
                          orch := { s.orch with pc := .putRespSentinels k' } }
          else none
  | .joinNet i =>
      if i < sc.numNet then
        match s.nets.get? i with
        | some ns =>
            if ns.pc = .done then
              some { s with orch := { s.orch with pc := .joinNet (i + 1) } }
            else none
        | none => none
      else some { s with orch := { s.orch with pc := .joinParsers 0 } }
  | .joinParsers i =>
      if i < sc.numParsers then
        match s.parsers.get? i with
        | some ps =>
            if ps.pc.finished then
              some { s with orch := { s.orch with pc := .joinParsers (i + 1) } }
            else none
        | none => none
      else some { s with orch := { s.orch with pc := .finalDrain } }
  | .finalDrain =>
      match s.fatal with
      | e :: rest =>
          some { s with fatal := rest, orch := { pc := .terminated, pending := some e } }
      | [] => some { s with orch := { s.orch with pc := .callHook } }
  | .callHook =>
      some { s with hookCalls := s.hookCalls + 1,
                    orch := { s.orch with pc := .terminated } }
  | .terminated => none

/-- Thread identifiers: the main (orchestrator) thread, the task-generator
thread, the network workers and the parser workers. -/
inductive Tid where
  | orch
  | gen
  | netW (i : Nat)
  | parserW (i : Nat)
deriving DecidableEq

/-- One interleaved step: the scheduled thread moves if it is enabled. -/
def step (sc : Setup) (s : SysState) : Tid → Option SysState
  | .orch => orchStep sc s
  | .gen => genStep sc s
  | .netW i => netStep sc s i
  | .parserW i => parserStep sc s i

/-- Run a schedule: at each entry the named thread steps if enabled,
otherwise the state is unchanged (the thread stays blocked). -/
def runSched (sc : Setup) (s : SysState) : List Tid → SysState
  | [] => s
  | t :: rest =>
      runSched sc (match step sc s t with | some s' => s' | none => s) rest

/-- The state right after `run` has started all threads
(`base.py:162`–`178`): queues empty, events unset, every worker at the top
of its loop, the orchestrator at the `while self._work_allowed:` test. -/
def initState (sc : Setup) : SysState :=
  { reqQueue := []
    respQueue := []
    fatal := []
    workAllowed := true
    pauseEvent := false
    resumeEvent := false
    gen := { pc := .pull, rest := sc.tasks }
    nets := List.replicate sc.numNet { pc := .getTask, active := false }
    parsers := List.replicate sc.numParsers { pc := .getResult, paused := false }
    orch := { pc := .checkWork, pending := none }
    hookCalls := 0
    rejections := [] }

/-- A state in which no thread of the program can take any step: every
worker is blocked or finished and the orchestrator is blocked, so nothing
ever changes again. -/
def Deadlocked (sc : Setup) (s : SysState) : Prop :=
  ∀ t : Tid, step sc s t = none

/-!
## Concrete run configurations used in the executions below
-/

/-- A request as produced by a seed task generator. -/
def sampleReqA : Request := { url := "http://a", tag := "a", networkTryCount := 0 }

/-- An opaque transport response. -/
def sampleResp : Response := { body := "ok" }

/-- An arbitrary non-network exception, as raised by a handler body. -/
def boomErr : Err := Err.other "boom"

/-- Setup with one network worker, one parser, no tasks at all. -/
def idleSetup : Setup :=
  { numNet := 1, numParsers := 1, networkTryLimit := 10, tasks := [],
    transport := fun _ => .success sampleResp, handlers := fun _ => none }

/-- After two parser steps from the initial state of `idleSetup`: the timed
`get` on the empty Result Queue raises `Empty`, and the worker pauses. -/
def idleTimeoutState : SysState :=
  runSched idleSetup (initState idleSetup) [.parserW 0, .parserW 0]

/-- Setup with one network worker, one parser, a single task whose fetch
succeeds, and an empty handler registry (never reached in the run below). -/
def raceSetup : Setup :=
  { numNet := 1, numParsers := 1, networkTryLimit := 10, tasks := [.req sampleReqA],
    transport := fun _ => .success sampleResp, handlers := fun _ => none }

/-- Schedule for `raceSetup`: the generator enqueues its one request and
finishes; the network worker dequeues the request (`base.py:83`) but is
preempted before `active = True` (line 86); the parser times out and pauses;
the orchestrator runs its whole DRAINING check — generator dead, both queues
empty, parser paused, `active` still `False` — and reaches the
`self._work_allowed = False` assignment (line 214); the network worker then
passes the sentinel test and executes `active = True`. -/
def raceSchedPre : List Tid :=
  [.gen, .gen, .gen, .gen,
   .netW 0,
   .parserW 0, .parserW 0,
   .orch, .orch, .orch, .orch, .orch, .orch, .orch, .orch, .orch, .orch,
   .netW 0, .netW 0]

/-- The state right before the orchestrator executes line 214. -/
def raceBefore : SysState := runSched raceSetup (initState raceSetup) raceSchedPre

/-- One more orchestrator step: `self._work_allowed = False` executes. -/
def raceAfter : SysState := runSched raceSetup raceBefore [.orch]

/-- The network worker then completes its fetch and fills the Result Queue
after shutdown was decided. -/
def raceLater : SysState := runSched raceSetup raceAfter [.netW 0, .netW 0]

/-- The handler whose body raises a plain error. -/
def handlerBoom : Request → Response → HandlerRun :=
  fun _ _ => { yields := [], raises := some boomErr }

/-- Setup with one network worker, one parser, one task whose fetch succeeds
and whose handler raises `boomErr` (the spec's fatal-error scenario). -/
def fatalSetup : Setup :=
  { numNet := 1, numParsers := 1, networkTryLimit := 10, tasks := [.req sampleReqA],
    transport := fun _ => .success sampleResp,
    handlers := fun t => if t = "a" then some handlerBoom else none }

/-- Schedule for `fatalSetup`: the generator enqueues its request and
finishes; the network worker fetches it and fills the Result Queue; the
parser dispatches the handler, which raises, pushing `boomErr` onto the
Fatal Error Channel; the parser then times out on the now-empty Result
Queue and pauses (`base.py:125`–`127`); the orchestrator polls the channel,
re-raises, enters the `finally:`, puts both sentinels, joins the network
worker — and reaches the parser join with the parser blocked inside
`self._resume_event.wait()`. -/
def fatalSched : List Tid :=
  [.gen, .gen, .gen, .gen,
   .netW 0, .netW 0, .netW 0, .netW 0, .netW 0, .netW 0,
   .parserW 0, .parserW 0, .parserW 0, .parserW 0, .parserW 0,
   .parserW 0, .parserW 0,
   .orch, .orch, .orch,
   .netW 0, .netW 0,
   .orch, .orch, .orch, .orch, .orch]

/-- The state reached by `fatalSched`. -/
def fatalDeadState : SysState := runSched fatalSetup (initState fatalSetup) fatalSched

/-!
## Claim theorems
-/

/-- Claim C1: the claim states that shutdown never occurs while any network
worker is active.  The code violates it: in the execution `raceSchedPre`, a
network worker dequeues the last request (`base.py:83`) and is preempted
before `active = True` (line 86); the orchestrator's whole DRAINING check
then passes — both queues empty, parser paused, the flag still `False` —
and the worker sets `active = True` before the orchestrator executes
`self._work_allowed = False` (line 214).  Shutdown is thus decided at a
state where the network worker's `active` flag is `True` and a fetch is in
flight, and the worker subsequently fills the Result Queue after shutdown:
the precise termination condition claimed by the spec does not hold. -/
theorem shutdown_while_net_worker_active :
    raceBefore.workAllowed = true ∧
    raceBefore.orch.pc = OrchPc.setWorkFalse ∧
    raceBefore.reqQueue = [] ∧
    raceBefore.respQueue = [] ∧
    raceBefore.parsers = [{ pc := .waitResume, paused := true }] ∧
    raceBefore.nets = [{ pc := .fetch sampleReqA, active := true }] ∧
    raceAfter.workAllowed = false ∧
    raceAfter.nets = [{ pc := .fetch sampleReqA, active := true }] ∧
    raceLater.workAllowed = false ∧
    raceLater.respQueue = [some (sampleReqA, sampleResp)] :=
  ⟨rfl, rfl, rfl, rfl, rfl, rfl, rfl, rfl, rfl, rfl⟩

/-- Claim C5: the claim states that a parser worker pauses only when a pause
has been requested.  The code violates it: `base.py:125` tests
`if self._pause_event:` — the truthiness of the `Event` object, which is
always `True` — instead of `self._pause_event.is_set()`.  In the execution
below nothing ever sets the pause event, the parser's timed `get` on the
empty Result Queue raises `Empty`, and the worker nevertheless marks itself
`paused = True` and blocks on the resume event. -/
theorem parser_paused_without_pause_request :
    idleTimeoutState.pauseEvent = false ∧
    idleTimeoutState.resumeEvent = false ∧
    idleTimeoutState.parsers = [{ pc := .waitResume, paused := true }] :=
  ⟨rfl, rfl, rfl⟩

/-- Claim C3: the claim states that a fatal error pushed by a worker is
raised by `run` after every worker thread has been joined.  The code can
instead hang forever: in the execution `fatalSched` the handler raises
`boomErr`, the orchestrator re-raises it and enters the `finally:` block;
meanwhile the parser has timed out on the empty Result Queue, marked itself
paused and blocked inside `self._resume_event.wait()` (`base.py:127`).
Nothing in the teardown ever sets the resume event, so the parser never
takes its sentinel, `join` at line 236 never returns, and the reached state
is a global deadlock: no thread has any enabled step, the shutdown hook was
never called and the pending error is never propagated to the caller. -/
theorem fatal_error_teardown_deadlock :
    fatalDeadState.orch.pending = some boomErr ∧
    fatalDeadState.orch.pc = OrchPc.joinParsers 0 ∧
    fatalDeadState.hookCalls = 0 ∧
    fatalDeadState.parsers = [{ pc := .waitResume, paused := true }] ∧
    fatalDeadState.resumeEvent = false ∧
    fatalDeadState.nets = [{ pc := .done, active := false }] ∧
    fatalDeadState.gen.pc = GenPc.done ∧
    Deadlocked fatalSetup fatalDeadState := by
  refine ⟨rfl, rfl, rfl, rfl, rfl, rfl, rfl, ?_⟩
  intro t
  cases t with
  | orch => rfl
  | gen => rfl
  | netW i =>
      cases i with
      | zero => rfl
      | succ n => rfl
  | parserW i =>
      cases i with
      | zero => rfl
      | succ n => rfl

/-- Helper for the all-transient retry loop: starting `fuel` attempts below
the limit, the run makes exactly `fuel + 1` fetch attempts and `fuel`
re-enqueues, and ends with the single rejection, which carries the request
at try count `limit + 1` and a `none` response. -/
theorem allTransientRun_spec (limit : Nat) (msg : String) :
    ∀ (fuel : Nat) (req : Request), req.networkTryCount + fuel = limit →
      countAttempts (allTransientRun limit msg (fuel + 1) req) = fuel + 1 ∧
      countRequeues (allTransientRun limit msg (fuel + 1) req) = fuel ∧
      countRejects (allTransientRun limit msg (fuel + 1) req) = 1 ∧
      ∃ pre, allTransientRun limit msg (fuel + 1) req =
        pre ++ [NetEvent.reject
          { url := req.url, tag := req.tag, networkTryCount := limit + 1 }
          none (.networkError msg)] := by
  intro fuel
  induction fuel with
  | zero =>
      intro req h
      have hc : req.networkTryCount = limit := by omega
      have hres : networkHandleFetch limit req (.raises (.networkError msg)) =
          { requeued := none, respPushed := none, fatalPushed := none,
            rejected := some
              ({ url := req.url, tag := req.tag, networkTryCount := limit + 1 },
               none, .networkError msg),
            reqAfter := { url := req.url, tag := req.tag, networkTryCount := limit + 1 } } := by
        simp [networkHandleFetch, Err.isNetworkError, Request.bump, hc]
      refine ⟨?_, ?_, ?_, [NetEvent.attempt req], ?_⟩ <;>
        simp [allTransientRun, hres, countAttempts, countRequeues, countRejects,
          List.countP_cons]
  | succ f ih =>
      intro req h
      have hle : ¬ req.networkTryCount + 1 > limit := by omega
      have hres : networkHandleFetch limit req (.raises (.networkError msg)) =
          { requeued := some req.bump, respPushed := none, fatalPushed := none,
            rejected := none, reqAfter := req.bump } := by
        simp [networkHandleFetch, Err.isNetworkError, Request.bump, hle]
      have hstep : allTransientRun limit msg (f + 1 + 1) req =
          .attempt req :: .requeue req.bump ::
            allTransientRun limit msg (f + 1) req.bump := by
        simp [allTransientRun, hres]
      obtain ⟨ha, hq, hr, pre, hpre⟩ :=
        ih req.bump (by simp [Request.bump]; omega)
      have hurl : req.bump.url = req.url := rfl
      have htag : req.bump.tag = req.tag := rfl
      refine ⟨?_, ?_, ?_, .attempt req :: .requeue req.bump :: pre, ?_⟩
      · simp [hstep, countAttempts, List.countP_cons] at ha ⊢
        omega
      · simp [hstep, countRequeues, List.countP_cons] at hq ⊢
        omega
      · simp [hstep, countRejects, List.countP_cons] at hr ⊢
        omega
      · rw [hstep, hpre, hurl, htag]
        rfl

/-- Claim C2: starting from `network_try_count = 0`, if every fetch of a
request raises `NetworkError`, the network workers make exactly
`network_try_limit + 1` fetch attempts on it (the initial attempt plus one
per re-enqueue, `base.py:99`), re-enqueue it exactly `network_try_limit`
times, and the run ends with the single `process_rejected_request(req, None,
ex)` invocation (line 97), after which nothing is enqueued again: the
rejection is the final event of the trace. -/
theorem retry_attempts_exact (limit : Nat) (msg : String) (req : Request)
    (h0 : req.networkTryCount = 0) :
    countAttempts (allTransientRun limit msg (limit + 1) req) = limit + 1 ∧
    countRequeues (allTransientRun limit msg (limit + 1) req) = limit ∧
    countRejects (allTransientRun limit msg (limit + 1) req) = 1 ∧
    ∃ pre, allTransientRun limit msg (limit + 1) req =
      pre ++ [NetEvent.reject
        { url := req.url, tag := req.tag, networkTryCount := limit + 1 }
        none (.networkError msg)] :=
  allTransientRun_spec limit msg limit req (by omega)

/-- Witness for C2 at `network_try_limit = 2` (the spec's own scenario):
three fetch attempts, then one rejection. -/
theorem retry_attempts_exact_witness :
    ({ url := "http://a", tag := "a", networkTryCount := 0 } : Request).networkTryCount = 0 ∧
    countAttempts (allTransientRun 2 "timeout" 3
      { url := "http://a", tag := "a", networkTryCount := 0 }) = 3 ∧
    countRejects (allTransientRun 2 "timeout" 3
      { url := "http://a", tag := "a", networkTryCount := 0 }) = 1 :=
  ⟨rfl, (retry_attempts_exact 2 "timeout" _ rfl).1,
    (retry_attempts_exact 2 "timeout" _ rfl).2.2.1⟩

/-- Counterexample for claim C4: the claim states that an error raised
during the handler-registry lookup by the request's tag is captured and
pushed onto the Fatal Error Channel and the worker continues.  But the
lookup `self._handlers[req.tag]` (`base.py:133`) is OUTSIDE the `try:`
that starts at line 137: with an empty registry the `KeyError` is uncaught,
nothing reaches the Fatal Error Channel, and the worker thread dies. -/
theorem parser_lookup_error_uncaught :
    parserProcessItem (fun _ => none)
      { url := "http://a", tag := "a", networkTryCount := 0 } { body := "ok" } =
      .crashed (.keyError "a") :=
  rfl

/-- Claim C4 (amended): when the registry lookup by the request's tag
succeeds, every error raised inside the `try:` of `worker_parser` — the
handler invocation, the iteration of its yields and the
`assert isinstance(item, Request)` — is captured whole and pushed onto the
Fatal Error Channel, and the worker continues to the next item (the outcome
is always `cont`, never a crash); an error in the lookup itself (line 133)
is not captured and kills the worker thread. -/
theorem parser_handler_errors_captured
    (handlers : String → Option (Request → Response → HandlerRun))
    (req : Request) (resp : Response) (h : Request → Response → HandlerRun)
    (hh : handlers req.tag = some h) :
    parserProcessItem handlers req resp =
      .cont (processYields (h req resp).yields).1 (capturedError (h req resp)) := by
  simp only [parserProcessItem, capturedError, hh]
  cases hy : (processYields (h req resp).yields).2 with
  | none => cases hr : (h req resp).raises <;> simp [hy, hr]
  | some e => simp [hy]

/-- Witness for C4: the handler that raises `boomErr` is found under tag
"a"; the error is captured and the worker continues. -/
theorem parser_handler_errors_captured_witness :
    fatalSetup.handlers sampleReqA.tag = some handlerBoom ∧
    parserProcessItem fatalSetup.handlers sampleReqA sampleResp =
      .cont [] (some boomErr) :=
  ⟨rfl, parser_handler_errors_captured fatalSetup.handlers sampleReqA sampleResp
    handlerBoom rfl⟩

/-- Counterexample for claim C6: the claim states that `network_try_count`
never exceeds `network_try_limit`.  With `network_try_limit = 1` and a
transport that always raises `NetworkError`, the second failed attempt
increments the count to `2 > 1` (it is exactly this exceeding count that
triggers the rejection at `base.py:93`–`97`). -/
theorem try_count_exceeds_limit :
    allTransientRun 1 "timeout" 2
      { url := "http://a", tag := "a", networkTryCount := 0 } =
      [.attempt { url := "http://a", tag := "a", networkTryCount := 0 },
       .requeue { url := "http://a", tag := "a", networkTryCount := 1 },
       .attempt { url := "http://a", tag := "a", networkTryCount := 1 },
       .reject { url := "http://a", tag := "a", networkTryCount := 2 }
         none (.networkError "timeout")] :=
  rfl

/-- Claim C6 (amended): `network_try_count` only increases, any request put
back on the Task Queue for retry has `network_try_count ≤ network_try_limit`
(so the count never exceeds `network_try_limit + 1`: one increment past a
retryable count), and a rejected request is not re-enqueued: rejection
happens exactly when the count has exceeded the limit. -/
theorem try_count_bounds (limit : Nat) (req : Request) (outcome : FetchOutcome) :
    req.networkTryCount ≤ (networkHandleFetch limit req outcome).reqAfter.networkTryCount ∧
    (∀ r', (networkHandleFetch limit req outcome).requeued = some r' →
      r'.networkTryCount ≤ limit) ∧
    (req.networkTryCount ≤ limit →
      (networkHandleFetch limit req outcome).reqAfter.networkTryCount ≤ limit + 1) ∧
    (∀ r rsp e, (networkHandleFetch limit req outcome).rejected = some (r, rsp, e) →
      (networkHandleFetch limit req outcome).requeued = none ∧
        limit < r.networkTryCount) := by
  refine ⟨?_, ?_, ?_, ?_⟩
  · cases outcome with
    | success resp => simp [networkHandleFetch]
    | raises e =>
        simp only [networkHandleFetch, Request.bump]
        split_ifs <;> simp
  · intro r' hr'
    cases outcome with
    | success resp => simp [networkHandleFetch] at hr'
    | raises e =>
        simp only [networkHandleFetch, Request.bump] at hr'
        split_ifs at hr' with h1 h2
        simp only [Option.some.injEq] at hr'
        subst hr'
        show req.networkTryCount + 1 ≤ limit
        omega
  · intro hle
    cases outcome with
    | success resp => simpa [networkHandleFetch] using Nat.le_succ_of_le hle
    | raises e =>
        simp only [networkHandleFetch, Request.bump]
        split_ifs <;> simp <;> omega
  · intro r rsp e' hrj
    cases outcome with
    | success resp => simp [networkHandleFetch] at hrj
    | raises e =>
        simp only [networkHandleFetch, Request.bump] at hrj ⊢
        split_ifs at hrj ⊢ with h1 h2
        refine ⟨rfl, ?_⟩
        simp only [Option.some.injEq, Prod.mk.injEq] at hrj
        obtain ⟨hr, -, -⟩ := hrj
        subst hr
        show limit < req.networkTryCount + 1
        omega

/-- Witness for C6 at `network_try_limit = 10`: the count after one failed
attempt from 0 is bounded by 11, and the requeued request's count by 10. -/
theorem try_count_bounds_witness :
    ({ url := "http://a", tag := "a", networkTryCount := 0 } : Request).networkTryCount ≤ 10 ∧
    (networkHandleFetch 10 { url := "http://a", tag := "a", networkTryCount := 0 }
      (.raises (.networkError "timeout"))).reqAfter.networkTryCount ≤ 11 :=
  ⟨by decide,
    (try_count_bounds 10 { url := "http://a", tag := "a", networkTryCount := 0 }
      (.raises (.networkError "timeout"))).2.2.1 (by decide)⟩

/-- Claim C7: a `(request, response)` pair is put on the Result Queue only
on the success path of a fetch (`else:` branch, `base.py:102`–`103`): when
the transport raises — be it `NetworkError` (retry or rejection) or any
other exception (fatal path) — nothing is pushed onto the Result Queue for
that attempt; on success exactly the pair `(req, resp)` is pushed. -/
theorem response_only_on_success (limit : Nat) (req : Request) (e : Err)
    (resp : Response) :
    (networkHandleFetch limit req (.raises e)).respPushed = none ∧
    (networkHandleFetch limit req (.success resp)).respPushed = some (req, resp) := by
  refine ⟨?_, rfl⟩
  simp only [networkHandleFetch]
  split_ifs <;> rfl

/-- Counterexample for claim C8: the claim states that `shutdown_hook` is
invoked exactly once on every run, including runs that end with a fatal
error.  But if the final poll of the Fatal Error Channel (`base.py:238`)
finds an error — one pushed by a worker during teardown — the `raise` at
line 242 exits the `finally:` block before line 243: the shutdown hook is
never invoked on that run. -/
theorem shutdown_hook_skipped_on_late_error :
    (runTeardown 10 1 none [Err.other "late"]).hookCalls = 0 ∧
    (runTeardown 10 1 none [Err.other "late"]).raised = some (Err.other "late") :=
  ⟨rfl, rfl⟩

/-- Claim C8 (amended): after the per-worker sentinels are put and every
worker thread is joined, the run invokes `shutdown_hook` exactly once before
returning or propagating its pending error — provided the final poll of the
Fatal Error Channel finds it empty; if that poll yields an error, that
error is raised instead and the hook is not invoked. -/
theorem shutdown_hook_when_drain_empty (numNet numParsers : Nat)
    (pending : Option Err) (e : Err) (rest : List Err) :
    (runTeardown numNet numParsers pending []).hookCalls = 1 ∧
    (runTeardown numNet numParsers pending []).raised = pending ∧
    (runTeardown numNet numParsers pending []).joinedNetThreads = true ∧
    (runTeardown numNet numParsers pending []).joinedParserThreads = true ∧
    (runTeardown numNet numParsers pending []).requestSentinels = numNet ∧
    (runTeardown numNet numParsers pending []).responseSentinels = numParsers ∧
    (runTeardown numNet numParsers pending (e :: rest)).hookCalls = 0 ∧
    (runTeardown numNet numParsers pending (e :: rest)).raised = some e :=
  ⟨rfl, rfl, rfl, rfl, rfl, rfl, rfl, rfl⟩

/-- Claim C9: the Task (request) Queue's capacity equals the configured
network worker count, the Result (response) Queue's capacity equals the
parser worker count, and the parser worker count is
`max(1, cpu_count() // 2)` (`base.py:30`–`43`). -/
theorem queue_capacities_from_config (numNetworkThreads networkTryLimit
    taskTryLimit cpuCount : Nat) :
    (crawlerInit numNetworkThreads networkTryLimit taskTryLimit
      cpuCount).requestQueueMaxsize = numNetworkThreads ∧
    (crawlerInit numNetworkThreads networkTryLimit taskTryLimit
      cpuCount).responseQueueMaxsize =
      (crawlerInit numNetworkThreads networkTryLimit taskTryLimit
        cpuCount).numParsers ∧
    (crawlerInit numNetworkThreads networkTryLimit taskTryLimit
      cpuCount).numParsers = max 1 (cpuCount / 2) :=
  ⟨rfl, rfl, rfl⟩

/-- Claim C10: if the external task sequence yields a non-`Request` value
after a prefix of genuine requests, `worker_task_generator` enqueues exactly
that prefix, then raises `UnknownTaskType`, which the `except` at
`base.py:75` pushes onto the Fatal Error Channel; neither the offending
value nor anything after it is ever enqueued, and the worker exits. -/
theorem generator_unknown_task_fatal (pre : List Request) (d : String)
    (post : List GenItem) :
    workerTaskGeneratorRun true (pre.map GenItem.req ++ GenItem.otherVal d :: post) =
      { enqueued := pre, fatal := some (Err.unknownTaskType d) } := by
  induction pre with
  | nil => rfl
  | cons r rest ih => simp [workerTaskGeneratorRun, ih]

end Crawler
